import Mathlib

set_option maxRecDepth 8000

/-!
Verification of the autonomous action loop of the Web-Agents repository
(`autonomous_web_agent.py`).  The Python code is shallowly embedded:

* Python strings are modelled as lists of characters (`Str`), with
  structurally recursive models of the string operations the source uses
  (`upper`, `lower`, `strip`, `in`, `split`, `startswith`).  The case
  mappings are ASCII, matching every string the source manipulates.
* Fallible browser operations (Playwright calls) are modelled as
  `Except Str`-valued data carried by the page model; a `.error e` value
  stands for the call raising an exception with description `e`.
* `asyncio` waits (`wait_for_timeout`, `sleep`) have no observable effect
  in the model and are omitted.
-/

namespace WebAgents

/-- Strings of the Python source, modelled as lists of characters. -/
abbrev Str := List Char

/-- The character list of a Lean string literal. -/
def chars (s : String) : Str := s.data

/-- The single-quote character (code point 39), the delimiter used by the
click-target extraction, which splits the action at single quotes. -/
def quoteChar : Char := Char.ofNat 39

/-- Python `str.upper()` (ASCII, as used by the source). -/
def upperL (s : Str) : Str := s.map Char.toUpper

/-- Python `str.lower()` (ASCII, as used by the source). -/
def lowerL (s : Str) : Str := s.map Char.toLower

/-- Python `s.startswith(pat)`: `isPrefixL pat s`. -/
def isPrefixL : Str → Str → Bool
  | [], _ => true
  | _ :: _, [] => false
  | p :: ps, c :: cs => p == c && isPrefixL ps cs

/-- Python substring membership `pat in s`: `containsL s pat`. -/
def containsL : Str → Str → Bool
  | [], pat => pat.isEmpty
  | s@(_ :: cs), pat => isPrefixL pat s || containsL cs pat

/-- Python `str.strip()`. -/
def trimL (s : Str) : Str :=
  ((s.dropWhile Char.isWhitespace).reverse.dropWhile Char.isWhitespace).reverse

/-- Prepend a character to the first piece of a split result. -/
def consHead (c : Char) : List Str → List Str
  | [] => [[c]]
  | p :: ps => (c :: p) :: ps

/-- Python `s.split(sep)` for a one-character separator. -/
def splitChar (sep : Char) : Str → List Str
  | [] => [[]]
  | c :: cs => if c == sep then [] :: splitChar sep cs else consHead c (splitChar sep cs)

/-- Python `s.split("http")`: split at each non-overlapping occurrence of
the four-character separator, scanning left to right. -/
def splitHttp : Str → List Str
  | 'h' :: 't' :: 't' :: 'p' :: rest => [] :: splitHttp rest
  | c :: cs => consHead c (splitHttp cs)
  | [] => [[]]

/-- Split at every whitespace character, keeping empty pieces. -/
def splitWsAll : Str → List Str
  | [] => [[]]
  | c :: cs => if c.isWhitespace then [] :: splitWsAll cs else consHead c (splitWsAll cs)

/-- Python `str.split()` with no argument: split on whitespace and drop
empty pieces. -/
def pySplit (s : Str) : List Str := (splitWsAll s).filter (fun p => !p.isEmpty)

/-- Model of `MockMultiOnClient.determine_action` (lines 216-231 of
`autonomous_web_agent.py`), after the prompt construction: the model call
either returns raw completion text (`.ok raw`, which the code strips) or
raises (`.error e`).  A raised exception yields the literal `TASK_FAILED`;
from step count 8 on, a stripped response containing neither terminal
marker is overridden to `TASK_COMPLETE`. -/
def determine_action (step_count : Nat) (modelResponse : Except Str Str) : Str :=
  match modelResponse with
  | .error _ => chars "TASK_FAILED"
  | .ok raw =>
    let action := trimL raw
    if 8 ≤ step_count ∧ containsL action (chars "TASK_COMPLETE") = false ∧
        containsL action (chars "TASK_FAILED") = false then
      chars "TASK_COMPLETE"
    else action

/-- C2: for every call to the decision step with step count at least 8,
if the (stripped) text returned by the language model contains neither
the marker `TASK_COMPLETE` nor the marker `TASK_FAILED`, the client
overrides the response and returns `TASK_COMPLETE` instead of the
text of the model. -/
theorem C2_forced_completion (step_count : Nat) (raw : Str)
    (h8 : 8 ≤ step_count)
    (hc : containsL (trimL raw) (chars "TASK_COMPLETE") = false)
    (hf : containsL (trimL raw) (chars "TASK_FAILED") = false) :
    determine_action step_count (.ok raw) = chars "TASK_COMPLETE" := by
  simp [determine_action, h8, hc, hf]

/-- Witness for C2 at step count 8 with model text `SCROLL`. -/
theorem C2_forced_completion_witness :
    determine_action 8 (.ok (chars "SCROLL")) = chars "TASK_COMPLETE" :=
  C2_forced_completion 8 (chars "SCROLL") (by decide) (by decide) (by decide)

/-- C6: for every task and page state, if the underlying model call raises
any exception, `determine_action` catches it and returns the failure
directive text `TASK_FAILED`; the exception is never propagated (the
embedding returns a plain directive, not an exceptional value). -/
theorem C6_model_fault_contained (step_count : Nat) (e : Str) :
    determine_action step_count (.error e) = chars "TASK_FAILED" := rfl

/-! ## The action executor (`MockMultiOnClient.execute_action`, lines 233-383)

The page is the state Playwright exposes to the executor.  Each clickable
or fillable element carries the outcome of interacting with it: `.ok ()`
for a successful call, `.error e` for a call raising an exception with
description `e`.  Likewise `gotoRes` gives the outcome of `page.goto` per
URL and `scrollRes` the outcome of the scroll evaluation. -/

/-- One element returned by `query_selector_all("button")` or `("a")`:
its `text_content()` and the outcome of clicking it. -/
structure Elem where
  textContent : Str
  clickRes : Except Str Unit

/-- One `input`/`textarea` element, with the attributes the CSS selectors
of the FILL and SEARCH branches inspect and the outcome of filling it. -/
structure InputElem where
  tag : Str
  nameAttr : Str
  idAttr : Str
  typeAttr : Str
  placeholder : Str
  fillRes : Except Str Unit

/-- The page state owned by the client. -/
structure Page where
  buttons : List Elem
  links : List Elem
  inputs : List InputElem
  gotoRes : Str → Except Str Unit
  scrollRes : Except Str Unit
  pressEnterRes : Except Str Unit

/-- A status/message pair as returned by `execute_action`. -/
structure ExecResult where
  status : String
  message : Str
deriving Repr, DecidableEq

/-- Quoted-target extraction of the CLICK branch:
the piece between the first pair of single quotes, when the action
contains a single quote (index 1 of the split at the quote character). -/
def quotedTarget (action : Str) : Option Str :=
  if containsL action [quoteChar] then some ((splitChar quoteChar action).getD 1 []) else none

/-- Fallback of the CLICK branch: click the first element of the tag if
one exists (lines 260-265 and 279-284), else report that no suitable
element was found (line 286). -/
def clickFirst (elems : List Elem) (firstMsg : Str) : Except Str ExecResult :=
  match elems.head? with
  | some el =>
    match el.clickRes with
    | .ok _ => .ok ⟨"CONTINUE", firstMsg⟩
    | .error e => .error e
  | none => .ok ⟨"CONTINUE", chars "No suitable element found to click"⟩

/-- CLICK on the element list of one tag: if a quoted target was given, click
the first element whose text contains it case-insensitively; otherwise
(or when nothing matches) fall back to the first element. -/
def clickElems (elems : List Elem) (action : Str) (kindLabel firstMsg : Str) :
    Except Str ExecResult :=
  match quotedTarget action with
  | some t =>
    match elems.find? (fun el => containsL (lowerL el.textContent) (lowerL t)) with
    | some el =>
      match el.clickRes with
      | .ok _ => .ok ⟨"CONTINUE", kindLabel ++ t⟩
      | .error e => .error e
    | none => clickFirst elems firstMsg
  | none => clickFirst elems firstMsg

/-- The CLICK branch (lines 244-287): dispatch on `button`/`link`
substrings of the lower-cased action; a raised click is an `.error`. -/
def clickBranch (page : Page) (action : Str) : Except Str ExecResult :=
  if containsL (lowerL action) (chars "button") then
    clickElems page.buttons action (chars "Clicked button: ") (chars "Clicked first button")
  else if containsL (lowerL action) (chars "link") then
    clickElems page.links action (chars "Clicked link: ") (chars "Clicked first link")
  else .ok ⟨"CONTINUE", chars "No suitable element found to click"⟩

/-- The prioritized selector list of the FILL branch (lines 300-314):
name match, id match, type match, then the `email` / `text`-`name`
defaults; empty selectors are skipped as in the source. -/
def fillSelectorHit (page : Page) (field : Str) : Option InputElem :=
  match page.inputs.find? (fun el => el.tag == chars "input" && el.nameAttr == field) with
  | some el => some el
  | none =>
  match page.inputs.find? (fun el => el.tag == chars "input" && el.idAttr == field) with
  | some el => some el
  | none =>
  match page.inputs.find? (fun el => el.tag == chars "input" && el.typeAttr == field) with
  | some el => some el
  | none =>
  match (if field == chars "email" then
           page.inputs.find? (fun el => el.tag == chars "input" && el.typeAttr == chars "email")
         else none) with
  | some el => some el
  | none =>
    if field == chars "text" || field == chars "name" then
      page.inputs.find? (fun el => el.tag == chars "input" && el.typeAttr == chars "text")
    else none

/-- The generic fallback selector of the FILL branch (line 317):
the first text input, email input or textarea in document order. -/
def fillFallback (page : Page) : Option InputElem :=
  page.inputs.find? (fun el =>
    (el.tag == chars "input" && (el.typeAttr == chars "text" || el.typeAttr == chars "email")) ||
    el.tag == chars "textarea")

/-- The FILL branch (lines 291-323). -/
def fillBranch (page : Page) (action : Str) : Except Str ExecResult :=
  let parts := pySplit action
  if 3 ≤ parts.length then
    let field := parts.getD 1 []
    let value := List.intercalate (chars " ") (parts.drop 2)
    match fillSelectorHit page field with
    | some el =>
      match el.fillRes with
      | .ok _ => .ok ⟨"CONTINUE", chars "Filled " ++ field ++ chars " with " ++ value⟩
      | .error e => .error e
    | none =>
      match fillFallback page with
      | some el =>
        match el.fillRes with
        | .ok _ => .ok ⟨"CONTINUE", chars "Filled field with " ++ value⟩
        | .error e => .error e
      | none => .ok ⟨"CONTINUE", chars "Could not parse fill command"⟩
  else .ok ⟨"CONTINUE", chars "Could not parse fill command"⟩

/-- URL extraction of the NAVIGATE branch (lines 336-339):
`url = action.split("http")[1]`, re-prefixed with `http` unless the
captured piece already starts with `://`; `none` when the action does not
contain `http`. -/
def navigate_url (action : Str) : Option Str :=
  if containsL action (chars "http") then
    let url0 := (splitHttp action).getD 1 []
    some (if isPrefixL (chars "://") url0 then url0 else chars "http" ++ url0)
  else none

/-- The NAVIGATE branch (lines 333-347): on success the field
`current_url` is updated to the destination, on a raised `goto` the
status is ERROR and `current_url` is left unchanged. -/
def navigateBranch (page : Page) (current_url : Option Str) (action : Str) :
    ExecResult × Option Str :=
  match navigate_url action with
  | some url =>
    match page.gotoRes url with
    | .ok _ => (⟨"CONTINUE", chars "Navigated to " ++ url⟩, some url)
    | .error e => (⟨"ERROR", chars "Navigation failed: " ++ e⟩, current_url)
  | none => (⟨"CONTINUE", chars "Invalid navigation URL"⟩, current_url)

/-- The search-box selector of the SEARCH branch (line 355):
the first input whose type is search, or whose name or placeholder
contains the word search. -/
def searchInput (page : Page) : Option InputElem :=
  page.inputs.find? (fun el => el.tag == chars "input" &&
    (el.typeAttr == chars "search" || containsL el.nameAttr (chars "search") ||
     containsL el.placeholder (chars "search")))

/-- The SEARCH branch (lines 349-368). -/
def searchBranch (page : Page) (action : Str) : Except Str ExecResult :=
  let searchText := trimL (action.drop 6)
  match searchInput page with
  | some el =>
    match el.fillRes with
    | .error e => .error e
    | .ok _ =>
      match page.pressEnterRes with
      | .error e => .error e
      | .ok _ => .ok ⟨"CONTINUE", chars "Searched for: " ++ searchText⟩
  | none =>
    match page.scrollRes with
    | .error e => .error e
    | .ok _ => .ok ⟨"CONTINUE", chars "Looking for: " ++ searchText⟩

/-- An inner `except` handler: a raised branch becomes status ERROR with
the message of the handler followed by the fault description. -/
def caught (msgStart : Str) (current_url : Option Str) :
    Except Str ExecResult → ExecResult × Option Str
  | .ok r => (r, current_url)
  | .error e => (⟨"ERROR", msgStart ++ e⟩, current_url)

/-- Model of `MockMultiOnClient.execute_action` (lines 233-383).  Returns the
status/message pair together with the `current_url` of the session after the
action.  The outer `try` converts any fault not caught by a branch
handler (a raised scroll in the SCROLL or unknown-action branches) to
status ERROR. -/
def execute_action (page : Page) (current_url : Option Str) (step_count : Nat)
    (action : Str) : ExecResult × Option Str :=
  let au := upperL action
  let run : Except Str (ExecResult × Option Str) :=
    if containsL au (chars "TASK_COMPLETE") then
      .ok (⟨"COMPLETE", chars "Task completed successfully"⟩, current_url)
    else if containsL au (chars "TASK_FAILED") then
      .ok (⟨"FAILED", chars "Task failed - could not complete"⟩, current_url)
    else if isPrefixL (chars "CLICK") au then
      .ok (caught (chars "Click failed: ") current_url (clickBranch page action))
    else if isPrefixL (chars "FILL") au then
      .ok (caught (chars "Fill failed: ") current_url (fillBranch page action))
    else if isPrefixL (chars "SCROLL") au then
      match page.scrollRes with
      | .ok _ => .ok (⟨"CONTINUE", chars "Scrolled down to explore more content"⟩, current_url)
      | .error e => .error e
    else if isPrefixL (chars "NAVIGATE") au then
      .ok (navigateBranch page current_url action)
    else if isPrefixL (chars "SEARCH") au then
      .ok (caught (chars "Search failed: ") current_url (searchBranch page action))
    else if step_count ≤ 3 then
      match page.scrollRes with
      | .ok _ => .ok (⟨"CONTINUE", chars "Exploring page: " ++ action⟩, current_url)
      | .error e => .error e
    else
      .ok (⟨"CONTINUE", chars "Executed: " ++ action⟩, current_url)
  match run with
  | .ok r => r
  | .error e => (⟨"ERROR", chars "Action execution failed: " ++ e⟩, current_url)

/-! ## The action grammar

`execute_action` never builds an explicit parse tree; the directive kind
and its payload are decided by the dispatch conditions and payload
extractions above.  `parse` factors exactly those conditions and
extractions (same order, same string tests) into a `Directive` value. -/

/-- A parsed directive: the kind and payload that the dispatch of
`execute_action` resolves a directive text to. -/
inductive Directive where
  | complete
  | failed
  | clickButton (target : Option Str)
  | clickLink (target : Option Str)
  | clickOther
  | fill (field value : Str)
  | fillInvalid
  | scroll
  | navigate (url : Option Str)
  | search (text : Str)
  | unknown (raw : Str)
deriving Repr, DecidableEq

/-- The directive a free-text action resolves to, factored from the
dispatch chain and payload extractions of `execute_action`
(lines 236-383). -/
def parse (action : Str) : Directive :=
  let au := upperL action
  if containsL au (chars "TASK_COMPLETE") then .complete
  else if containsL au (chars "TASK_FAILED") then .failed
  else if isPrefixL (chars "CLICK") au then
    if containsL (lowerL action) (chars "button") then .clickButton (quotedTarget action)
    else if containsL (lowerL action) (chars "link") then .clickLink (quotedTarget action)
    else .clickOther
  else if isPrefixL (chars "FILL") au then
    let parts := pySplit action
    if 3 ≤ parts.length then
      .fill (parts.getD 1 []) (List.intercalate (chars " ") (parts.drop 2))
    else .fillInvalid
  else if isPrefixL (chars "SCROLL") au then .scroll
  else if isPrefixL (chars "NAVIGATE") au then .navigate (navigate_url action)
  else if isPrefixL (chars "SEARCH") au then .search (trimL (action.drop 6))
  else .unknown action

/-- Modelled from the spec (4.3, NAVIGATE row): the destination is "the
substring from the first occurrence of the scheme marker `http` onward".
Used only to compare the description in the spec with `navigate_url`. -/
def spec_navigate_dest : Str → Option Str
  | [] => none
  | s@('h' :: 't' :: 't' :: 'p' :: _) => some s
  | _ :: cs => spec_navigate_dest cs

/-! ## The session driver (`autonomous_process`, lines 546-632)

One loop iteration calls `agent.execute_task`, which captures the page
context, asks the decision client for a directive and executes it.  The
driver only consumes the returned record (action text, status, screenshot
and message) or the exception the call raised, so the iteration is
abstracted as an oracle from the step number to that outcome. -/

/-- The record `agent.execute_task` returns to the driver (the `step` and
`url` entries of the Python dict are not read by the loop and are
omitted). -/
structure TaskResult where
  action : Str
  status : String
  screenshot : Str
  message : Str
deriving Repr, DecidableEq

/-- One entry of the `steps` trace. -/
structure StepRec where
  step_number : Nat
  action : Str
  status : String
  screenshot : Str
  message : Str
deriving Repr, DecidableEq

/-- The repeated-action check of the loop body (lines 576-588): mutates
the step result and the `last_action` / `repeated_actions` state.  A
third consecutive repeat of a non-SCROLL action, or a fourth consecutive
repeat of a SCROLL action, overrides the status to COMPLETE. -/
def repetition_update (r : TaskResult) (last_action : Str) (repeated_actions : Nat) :
    TaskResult × Str × Nat :=
  if r.action == last_action then
    let rep := repeated_actions + 1
    if 3 ≤ rep ∧ containsL r.action (chars "SCROLL") = false then
      ({ r with status := "COMPLETE", message := chars "Stopping due to repeated actions" },
       last_action, rep)
    else if 4 ≤ rep ∧ containsL r.action (chars "SCROLL") = true then
      ({ r with status := "COMPLETE", message := chars "Finished exploring page content" },
       last_action, rep)
    else (r, last_action, rep)
  else (r, r.action, 0)

/-- The `while` loop of `autonomous_process` (lines 571-617).  `fuel` is
a structural bound on the remaining iterations; every caller passes at
least `max_steps + 1 - step`, so the fuel-exhausted base case is never
reached before the loop guard `status == "CONTINUE" and step <= max_steps`
fails.  A raised iteration (`oracle step = .error e`) appends an ERROR
record and terminates with status ERROR (lines 608-617). -/
def loopGo (oracle : Nat → Except Str TaskResult) (max_steps : Nat) :
    Nat → Nat → String → Str → Nat → List StepRec → List StepRec × String
  | 0, _step, status, _last, _rep, steps => (steps, status)
  | fuel + 1, step, status, last_action, repeated_actions, steps =>
    if status = "CONTINUE" ∧ step ≤ max_steps then
      match oracle step with
      | .error e =>
        (steps ++ [⟨step, chars "ERROR", "ERROR", [], chars "Error: " ++ e⟩], "ERROR")
      | .ok r0 =>
        let u := repetition_update r0 last_action repeated_actions
        loopGo oracle max_steps fuel (step + 1) u.1.status u.2.1 u.2.2
          (steps ++ [⟨step, u.1.action, u.1.status, u.1.screenshot, u.1.message⟩])
    else (steps, status)

/-- The number of loop iterations `loopGo` executes from the given state:
it mirrors `loopGo`, adding one per executed iteration instead of
appending the step record. -/
def loopCount (oracle : Nat → Except Str TaskResult) (max_steps : Nat) :
    Nat → Nat → String → Str → Nat → Nat
  | 0, _step, _status, _last, _rep => 0
  | fuel + 1, step, status, last_action, repeated_actions =>
    if status = "CONTINUE" ∧ step ≤ max_steps then
      match oracle step with
      | .error _ => 1
      | .ok r0 =>
        let u := repetition_update r0 last_action repeated_actions
        loopCount oracle max_steps fuel (step + 1) u.1.status u.2.1 u.2.2 + 1
    else 0

/-- The result assembled at line 619: the trace, the final status and
`total_steps = len(steps) - 1`. -/
structure RunResult where
  steps : List StepRec
  final_status : String
  total_steps : Nat
deriving Repr, DecidableEq

/-- Model of `autonomous_process` (lines 546-632) after a successful
`create_session`: the initial record for step 0, then the loop starting
at step 1 with status CONTINUE, empty `last_action` and zero
`repeated_actions`. -/
def autonomous_process (oracle : Nat → Except Str TaskResult) (url initialScreenshot : Str)
    (max_steps : Nat) : RunResult :=
  let init : StepRec :=
    ⟨0, chars "Started session on " ++ url, "CONTINUE", initialScreenshot,
     chars "Session initialized"⟩
  let res := loopGo oracle max_steps (max_steps + 1) 1 "CONTINUE" [] 0 [init]
  ⟨res.1, res.2, res.1.length - 1⟩

/-- The number of loop iterations a full run executes. -/
def runIterations (oracle : Nat → Except Str TaskResult) (max_steps : Nat) : Nat :=
  loopCount oracle max_steps (max_steps + 1) 1 "CONTINUE" [] 0

/-! ## Loop lemmas -/

/-- Each executed iteration appends exactly one step record. -/
theorem loopGo_length (oracle : Nat → Except Str TaskResult) (max_steps : Nat) :
    ∀ fuel step status last rep steps,
      ((loopGo oracle max_steps fuel step status last rep steps).1).length =
        steps.length + loopCount oracle max_steps fuel step status last rep := by
  intro fuel
  induction fuel with
  | zero =>
    intro step status last rep steps
    simp [loopGo, loopCount]
  | succ n ih =>
    intro step status last rep steps
    simp only [loopGo, loopCount]
    split
    · cases h : oracle step with
      | error e => simp
      | ok r0 =>
        show (loopGo oracle max_steps n (step + 1)
            (repetition_update r0 last rep).1.status
            (repetition_update r0 last rep).2.1 (repetition_update r0 last rep).2.2
            (steps ++ [⟨step, (repetition_update r0 last rep).1.action,
              (repetition_update r0 last rep).1.status,
              (repetition_update r0 last rep).1.screenshot,
              (repetition_update r0 last rep).1.message⟩])).1.length =
          steps.length + (loopCount oracle max_steps n (step + 1)
            (repetition_update r0 last rep).1.status
            (repetition_update r0 last rep).2.1 (repetition_update r0 last rep).2.2 + 1)
        rw [ih]
        simp
        omega
    · simp

/-- The loop executes at most `max_steps + 1 - step` further iterations. -/
theorem loopCount_le (oracle : Nat → Except Str TaskResult) (max_steps : Nat) :
    ∀ fuel step status last rep,
      loopCount oracle max_steps fuel step status last rep ≤ max_steps + 1 - step := by
  intro fuel
  induction fuel with
  | zero =>
    intro step status last rep
    simp [loopCount]
  | succ n ih =>
    intro step status last rep
    simp only [loopCount]
    split
    · rename_i hguard
      cases h : oracle step with
      | error e =>
        show (1 : Nat) ≤ max_steps + 1 - step
        omega
      | ok r0 =>
        have := ih (step + 1) (repetition_update r0 last rep).1.status
          (repetition_update r0 last rep).2.1 (repetition_update r0 last rep).2.2
        show loopCount oracle max_steps n (step + 1)
            (repetition_update r0 last rep).1.status
            (repetition_update r0 last rep).2.1 (repetition_update r0 last rep).2.2 + 1 ≤
          max_steps + 1 - step
        omega
    · omega

/-- A non-CONTINUE status stops the loop: no further iteration runs. -/
theorem loopCount_terminal (oracle : Nat → Except Str TaskResult) (max_steps : Nat)
    (fuel step : Nat) (status : String) (last : Str) (rep : Nat)
    (h : status ≠ "CONTINUE") :
    loopCount oracle max_steps fuel step status last rep = 0 := by
  cases fuel with
  | zero => simp [loopCount]
  | succ n => simp [loopCount, h]

/-! ## Claim theorems -/

/-- C1: in the repeated-action check of the session loop, starting right after
a directive was recorded as `last_action` (repeat counter 0), the first
and second consecutive identical directives never force termination (the
step result is passed through unchanged); the third consecutive identical
non-SCROLL directive forces status COMPLETE with the repeated-actions
message; a SCROLL directive is passed through on the third repeat and
forces status COMPLETE with the finished-exploring message on the fourth. -/
theorem C1_repetition_policy (r : TaskResult) :
    repetition_update r r.action 0 = (r, r.action, 1) ∧
    repetition_update r r.action 1 = (r, r.action, 2) ∧
    (containsL r.action (chars "SCROLL") = false →
      repetition_update r r.action 2 =
        ({ r with status := "COMPLETE", message := chars "Stopping due to repeated actions" },
         r.action, 3)) ∧
    (containsL r.action (chars "SCROLL") = true →
      repetition_update r r.action 2 = (r, r.action, 3) ∧
      repetition_update r r.action 3 =
        ({ r with status := "COMPLETE", message := chars "Finished exploring page content" },
         r.action, 4)) := by
  refine ⟨?_, ?_, ?_, ?_⟩
  · simp [repetition_update]
  · simp [repetition_update]
  · intro hs
    simp [repetition_update, hs]
  · intro hs
    constructor
    · simp [repetition_update, hs]
    · simp [repetition_update, hs]

/-- Witness for C1: a non-SCROLL directive forces COMPLETE on its third
consecutive repeat, a SCROLL directive on its fourth. -/
theorem C1_repetition_policy_witness :
    repetition_update ⟨chars "CLICK first link", "CONTINUE", [], []⟩ (chars "CLICK first link") 2 =
      (⟨chars "CLICK first link", "COMPLETE", [],
        chars "Stopping due to repeated actions"⟩, chars "CLICK first link", 3) ∧
    repetition_update ⟨chars "SCROLL", "CONTINUE", [], []⟩ (chars "SCROLL") 3 =
      (⟨chars "SCROLL", "COMPLETE", [],
        chars "Finished exploring page content"⟩, chars "SCROLL", 4) :=
  ⟨(C1_repetition_policy ⟨chars "CLICK first link", "CONTINUE", [], []⟩).2.2.1 (by decide),
   ((C1_repetition_policy ⟨chars "SCROLL", "CONTINUE", [], []⟩).2.2.2 (by decide)).2⟩

/-- C3: for every run, exactly one step record is appended per executed
loop iteration: the trace length equals the number of completed
iterations plus one (the initial session-started record), and the
reported `total_steps` equals `len(steps) - 1`. -/
theorem C3_trace_length (oracle : Nat → Except Str TaskResult) (url ss : Str)
    (max_steps : Nat) :
    (autonomous_process oracle url ss max_steps).steps.length =
      runIterations oracle max_steps + 1 ∧
    (autonomous_process oracle url ss max_steps).total_steps =
      (autonomous_process oracle url ss max_steps).steps.length - 1 := by
  constructor
  · show (loopGo oracle max_steps (max_steps + 1) 1 "CONTINUE" [] 0 [_]).1.length = _
    rw [loopGo_length]
    simp [runIterations]
    omega
  · rfl

/-- C4: for every session and configured `max_steps`, the loop executes
at most `max_steps` iterations (so the trace holds at most
`max_steps + 1` records), and a terminal (non-CONTINUE) status stops it
with no further iterations; it never runs an unbounded number of steps. -/
theorem C4_step_budget (oracle : Nat → Except Str TaskResult) (url ss : Str)
    (max_steps : Nat) :
    runIterations oracle max_steps ≤ max_steps ∧
    (autonomous_process oracle url ss max_steps).steps.length ≤ max_steps + 1 ∧
    (∀ fuel step status last rep, status ≠ "CONTINUE" →
      loopCount oracle max_steps fuel step status last rep = 0) := by
  have hle : runIterations oracle max_steps ≤ max_steps := by
    have := loopCount_le oracle max_steps (max_steps + 1) 1 "CONTINUE" [] 0
    simpa [runIterations] using this
  refine ⟨hle, ?_, ?_⟩
  · have := (C3_trace_length oracle url ss max_steps).1
    omega
  · intro fuel step status last rep h
    exact loopCount_terminal oracle max_steps fuel step status last rep h

/-- A concrete oracle whose every iteration scrolls and continues. -/
def scrollOracle : Nat → Except Str TaskResult :=
  fun _ => .ok ⟨chars "SCROLL", "CONTINUE", [], chars "Scrolled down to explore more content"⟩

/-- Witness for C4 at `max_steps = 5` with the scrolling oracle, and a
terminal status at an arbitrary mid-loop state. -/
theorem C4_step_budget_witness :
    runIterations scrollOracle 5 ≤ 5 ∧
    loopCount scrollOracle 5 3 2 "COMPLETE" [] 0 = 0 :=
  ⟨(C4_step_budget scrollOracle [] [] 5).1,
   (C4_step_budget scrollOracle [] [] 5).2.2 3 2 "COMPLETE" [] 0 (by decide)⟩

/-- C5: the claim states that for a directive starting with NAVIGATE and
containing `http`, the destination equals the substring of the directive
from the first occurrence of `http` onward.  The code violates this: on
`NAVIGATE http://example.com` it navigates to `://example.com` — the
split on `http` consumes the scheme name and the re-prefixing is skipped
precisely because the captured piece already starts with `://` — while
the substring from the first `http` onward is `http://example.com`. -/
theorem C5_navigate_url_drops_scheme :
    navigate_url (chars "NAVIGATE http://example.com") = some (chars "://example.com") ∧
    spec_navigate_dest (chars "NAVIGATE http://example.com") =
      some (chars "http://example.com") ∧
    chars "://example.com" ≠ chars "http://example.com" := by
  refine ⟨by decide, by decide, by decide⟩

/-- C9: the parsing round trip of the action grammar on the three
spec examples: a quoted CLICK button directive resolves to CLICK_BUTTON
with the quoted target, `FILL email test@example.com` resolves to FILL
with field `email` and value `test@example.com`, and
`NAVIGATE https://example.com` resolves to NAVIGATE with destination
`https://example.com`. -/
theorem C9_parse_round_trip :
    parse (chars "CLICK button " ++ [quoteChar] ++ chars "Submit" ++ [quoteChar]) =
      .clickButton (some (chars "Submit")) ∧
    parse (chars "FILL email test@example.com") =
      .fill (chars "email") (chars "test@example.com") ∧
    parse (chars "NAVIGATE https://example.com") =
      .navigate (some (chars "https://example.com")) := by
  refine ⟨by decide, by decide, by decide⟩

/-- On an empty element list, the CLICK flow reports that no suitable
element was found, whether or not a quoted target is present. -/
theorem clickElems_nil (action kindLabel firstMsg : Str) :
    clickElems [] action kindLabel firstMsg =
      .ok ⟨"CONTINUE", chars "No suitable element found to click"⟩ := by
  unfold clickElems clickFirst
  cases quotedTarget action <;> simp

/-- C8: executing a CLICK-button directive against a page that contains
zero button elements yields status CONTINUE with the no-suitable-element
message — never status ERROR and never an uncaught fault.  The directive
is any text the dispatch resolves to the CLICK-button case: it contains
no terminal marker, starts with CLICK (case-insensitively) and contains
`button` (case-insensitively). -/
theorem C8_click_button_no_elements (page : Page) (cu : Option Str) (sc : Nat) (action : Str)
    (hbtns : page.buttons = [])
    (h1 : containsL (upperL action) (chars "TASK_COMPLETE") = false)
    (h2 : containsL (upperL action) (chars "TASK_FAILED") = false)
    (h3 : isPrefixL (chars "CLICK") (upperL action) = true)
    (h4 : containsL (lowerL action) (chars "button") = true) :
    execute_action page cu sc action =
      (⟨"CONTINUE", chars "No suitable element found to click"⟩, cu) := by
  have hclick : clickBranch page action =
      .ok ⟨"CONTINUE", chars "No suitable element found to click"⟩ := by
    unfold clickBranch
    rw [hbtns]
    simp [h4, clickElems_nil]
  simp [execute_action, h1, h2, h3, hclick, caught]

/-- A page with no buttons (one link, so the page is not empty). -/
def buttonlessPage : Page :=
  ⟨[], [⟨chars "Home", .ok ()⟩], [], fun _ => .ok (), .ok (), .ok ()⟩

/-- The directive text: CLICK button, with quoted target Submit. -/
def clickSubmitAction : Str :=
  chars "CLICK button " ++ [quoteChar] ++ chars "Submit" ++ [quoteChar]

/-- Witness for C8: a quoted CLICK button directive on the buttonless page. -/
theorem C8_click_button_no_elements_witness :
    execute_action buttonlessPage (some (chars "https://a.example")) 1 clickSubmitAction =
      (⟨"CONTINUE", chars "No suitable element found to click"⟩,
       some (chars "https://a.example")) :=
  C8_click_button_no_elements buttonlessPage (some (chars "https://a.example")) 1
    clickSubmitAction rfl (by decide) (by decide) (by decide) (by decide)

/-- C10: NAVIGATE is atomic on failure.  For any directive the dispatch
resolves to NAVIGATE: with no `http` in the text, the result is CONTINUE
with the invalid-URL message and `current_url` unchanged; when `goto`
raises, the result is ERROR with the fault description and `current_url`
unchanged; `current_url` is updated (to the extracted destination)
exactly when navigation completes successfully. -/
theorem C10_navigate_atomic (page : Page) (cu : Option Str) (sc : Nat) (action : Str)
    (h1 : containsL (upperL action) (chars "TASK_COMPLETE") = false)
    (h2 : containsL (upperL action) (chars "TASK_FAILED") = false)
    (h3 : isPrefixL (chars "CLICK") (upperL action) = false)
    (h4 : isPrefixL (chars "FILL") (upperL action) = false)
    (h5 : isPrefixL (chars "SCROLL") (upperL action) = false)
    (h6 : isPrefixL (chars "NAVIGATE") (upperL action) = true) :
    (containsL action (chars "http") = false →
      execute_action page cu sc action = (⟨"CONTINUE", chars "Invalid navigation URL"⟩, cu)) ∧
    (∀ u e, navigate_url action = some u → page.gotoRes u = .error e →
      execute_action page cu sc action = (⟨"ERROR", chars "Navigation failed: " ++ e⟩, cu)) ∧
    (∀ u, navigate_url action = some u → page.gotoRes u = .ok () →
      execute_action page cu sc action = (⟨"CONTINUE", chars "Navigated to " ++ u⟩, some u)) := by
  have hexec : execute_action page cu sc action = navigateBranch page cu action := by
    simp [execute_action, h1, h2, h3, h4, h5, h6]
  refine ⟨?_, ?_, ?_⟩
  · intro hh
    rw [hexec]
    simp [navigateBranch, navigate_url, hh]
  · intro u e hu he
    rw [hexec]
    simp [navigateBranch, hu, he]
  · intro u hu hok
    rw [hexec]
    simp [navigateBranch, hu, hok]

/-- A page on which every browser operation succeeds. -/
def okPage : Page := ⟨[], [], [], fun _ => .ok (), .ok (), .ok ()⟩

/-- A page on which navigation raises. -/
def downPage : Page :=
  ⟨[], [], [], fun _ => .error (chars "net::ERR_CONNECTION"), .ok (), .ok ()⟩

/-- Witness for C10: an http-less NAVIGATE leaves the URL unchanged, a
raised `goto` yields ERROR with the URL unchanged, and a successful
`goto` updates the URL to the destination. -/
theorem C10_navigate_atomic_witness :
    execute_action okPage (some (chars "https://start.example")) 1
        (chars "NAVIGATE nowhere") =
      (⟨"CONTINUE", chars "Invalid navigation URL"⟩, some (chars "https://start.example")) ∧
    execute_action downPage (some (chars "https://start.example")) 1
        (chars "NAVIGATE https://example.com") =
      (⟨"ERROR", chars "Navigation failed: " ++ chars "net::ERR_CONNECTION"⟩,
       some (chars "https://start.example")) ∧
    execute_action okPage (some (chars "https://start.example")) 1
        (chars "NAVIGATE https://example.com") =
      (⟨"CONTINUE", chars "Navigated to " ++ chars "https://example.com"⟩,
       some (chars "https://example.com")) :=
  ⟨(C10_navigate_atomic okPage (some (chars "https://start.example")) 1
      (chars "NAVIGATE nowhere") (by decide) (by decide) (by decide) (by decide)
      (by decide) (by decide)).1 (by decide),
   (C10_navigate_atomic downPage (some (chars "https://start.example")) 1
      (chars "NAVIGATE https://example.com") (by decide) (by decide) (by decide) (by decide)
      (by decide) (by decide)).2.1 (chars "https://example.com")
      (chars "net::ERR_CONNECTION") (by decide) rfl,
   (C10_navigate_atomic okPage (some (chars "https://start.example")) 1
      (chars "NAVIGATE https://example.com") (by decide) (by decide) (by decide) (by decide)
      (by decide) (by decide)).2.2 (chars "https://example.com") (by decide) rfl⟩

/-- C7: faults raised by page interaction are caught and converted.  For
every directive kind whose execution touches the page, a raised operation
(`.error e` in the branch) makes `execute_action` return status ERROR
with a message carrying the fault description `e` — `Click failed`,
`Fill failed`, `Navigation failed`, `Search failed`, or the outer
`Action execution failed` of the outer handler for a scroll raised in
the SCROLL branch or in the exploratory scroll that an unknown-kind
directive (matching no dispatch case) performs during the first steps
(`step_count <= 3`, lines 372-376) — with
`current_url` unchanged; `execute_action` is a total function, so no
fault propagates to the driver.  In turn, if an in-loop iteration raises
(`oracle step = .error e`), the driver appends an ERROR step record and
returns the completed trace with terminal status ERROR rather than
raising. -/
theorem C7_fault_conversion :
    (∀ (page : Page) (cu : Option Str) (sc : Nat) (action e : Str),
      containsL (upperL action) (chars "TASK_COMPLETE") = false →
      containsL (upperL action) (chars "TASK_FAILED") = false →
      isPrefixL (chars "CLICK") (upperL action) = true →
      clickBranch page action = .error e →
      execute_action page cu sc action = (⟨"ERROR", chars "Click failed: " ++ e⟩, cu)) ∧
    (∀ (page : Page) (cu : Option Str) (sc : Nat) (action e : Str),
      containsL (upperL action) (chars "TASK_COMPLETE") = false →
      containsL (upperL action) (chars "TASK_FAILED") = false →
      isPrefixL (chars "CLICK") (upperL action) = false →
      isPrefixL (chars "FILL") (upperL action) = true →
      fillBranch page action = .error e →
      execute_action page cu sc action = (⟨"ERROR", chars "Fill failed: " ++ e⟩, cu)) ∧
    (∀ (page : Page) (cu : Option Str) (sc : Nat) (action e : Str),
      containsL (upperL action) (chars "TASK_COMPLETE") = false →
      containsL (upperL action) (chars "TASK_FAILED") = false →
      isPrefixL (chars "CLICK") (upperL action) = false →
      isPrefixL (chars "FILL") (upperL action) = false →
      isPrefixL (chars "SCROLL") (upperL action) = true →
      page.scrollRes = .error e →
      execute_action page cu sc action =
        (⟨"ERROR", chars "Action execution failed: " ++ e⟩, cu)) ∧
    (∀ (page : Page) (cu : Option Str) (sc : Nat) (action u e : Str),
      containsL (upperL action) (chars "TASK_COMPLETE") = false →
      containsL (upperL action) (chars "TASK_FAILED") = false →
      isPrefixL (chars "CLICK") (upperL action) = false →
      isPrefixL (chars "FILL") (upperL action) = false →
      isPrefixL (chars "SCROLL") (upperL action) = false →
      isPrefixL (chars "NAVIGATE") (upperL action) = true →
      navigate_url action = some u →
      page.gotoRes u = .error e →
      execute_action page cu sc action = (⟨"ERROR", chars "Navigation failed: " ++ e⟩, cu)) ∧
    (∀ (page : Page) (cu : Option Str) (sc : Nat) (action e : Str),
      containsL (upperL action) (chars "TASK_COMPLETE") = false →
      containsL (upperL action) (chars "TASK_FAILED") = false →
      isPrefixL (chars "CLICK") (upperL action) = false →
      isPrefixL (chars "FILL") (upperL action) = false →
      isPrefixL (chars "SCROLL") (upperL action) = false →
      isPrefixL (chars "NAVIGATE") (upperL action) = false →
      isPrefixL (chars "SEARCH") (upperL action) = true →
      searchBranch page action = .error e →
      execute_action page cu sc action = (⟨"ERROR", chars "Search failed: " ++ e⟩, cu)) ∧
    (∀ (page : Page) (cu : Option Str) (sc : Nat) (action e : Str),
      containsL (upperL action) (chars "TASK_COMPLETE") = false →
      containsL (upperL action) (chars "TASK_FAILED") = false →
      isPrefixL (chars "CLICK") (upperL action) = false →
      isPrefixL (chars "FILL") (upperL action) = false →
      isPrefixL (chars "SCROLL") (upperL action) = false →
      isPrefixL (chars "NAVIGATE") (upperL action) = false →
      isPrefixL (chars "SEARCH") (upperL action) = false →
      sc ≤ 3 →
      page.scrollRes = .error e →
      execute_action page cu sc action =
        (⟨"ERROR", chars "Action execution failed: " ++ e⟩, cu)) ∧
    (∀ (oracle : Nat → Except Str TaskResult) (max_steps fuel step : Nat) (last : Str)
        (rep : Nat) (steps : List StepRec) (e : Str),
      step ≤ max_steps →
      oracle step = .error e →
      loopGo oracle max_steps (fuel + 1) step "CONTINUE" last rep steps =
        (steps ++ [⟨step, chars "ERROR", "ERROR", [], chars "Error: " ++ e⟩], "ERROR")) := by
  refine ⟨?_, ?_, ?_, ?_, ?_, ?_, ?_⟩
  · intro page cu sc action e h1 h2 h3 hb
    simp [execute_action, h1, h2, h3, hb, caught]
  · intro page cu sc action e h1 h2 h3 h4 hb
    simp [execute_action, h1, h2, h3, h4, hb, caught]
  · intro page cu sc action e h1 h2 h3 h4 h5 hs
    simp [execute_action, h1, h2, h3, h4, h5, hs]
  · intro page cu sc action u e h1 h2 h3 h4 h5 h6 hu he
    simp [execute_action, navigateBranch, h1, h2, h3, h4, h5, h6, hu, he]
  · intro page cu sc action e h1 h2 h3 h4 h5 h6 h7 hb
    simp [execute_action, h1, h2, h3, h4, h5, h6, h7, hb, caught]
  · intro page cu sc action e h1 h2 h3 h4 h5 h6 h7 hsc hs
    simp [execute_action, h1, h2, h3, h4, h5, h6, h7, hsc, hs]
  · intro oracle max_steps fuel step last rep steps e hstep horacle
    simp [loopGo, hstep, horacle]

/-- A page where clicking the only button raises. -/
def failClickPage : Page :=
  ⟨[⟨chars "Submit", .error (chars "detached element")⟩], [], [],
   fun _ => .ok (), .ok (), .ok ()⟩

/-- A page where filling the email input raises. -/
def failFillPage : Page :=
  ⟨[], [], [⟨chars "input", chars "email", [], chars "email", [],
    .error (chars "input gone")⟩], fun _ => .ok (), .ok (), .ok ()⟩

/-- A page where scrolling raises. -/
def failScrollPage : Page :=
  ⟨[], [], [], fun _ => .ok (), .error (chars "lost page"), .ok ()⟩

/-- An iteration oracle whose every step raises. -/
def crashOracle : Nat → Except Str TaskResult := fun _ => .error (chars "browser crashed")

/-- Witness for C7: each converted fault evaluated on a concrete page or
oracle. -/
theorem C7_fault_conversion_witness :
    execute_action failClickPage none 1 (chars "CLICK button") =
      (⟨"ERROR", chars "Click failed: " ++ chars "detached element"⟩, none) ∧
    execute_action failFillPage none 1 (chars "FILL email a@b.example") =
      (⟨"ERROR", chars "Fill failed: " ++ chars "input gone"⟩, none) ∧
    execute_action failScrollPage none 1 (chars "SCROLL") =
      (⟨"ERROR", chars "Action execution failed: " ++ chars "lost page"⟩, none) ∧
    execute_action downPage none 1 (chars "NAVIGATE https://example.com") =
      (⟨"ERROR", chars "Navigation failed: " ++ chars "net::ERR_CONNECTION"⟩, none) ∧
    execute_action failScrollPage none 1 (chars "SEARCH cats") =
      (⟨"ERROR", chars "Search failed: " ++ chars "lost page"⟩, none) ∧
    execute_action failScrollPage none 1 (chars "DO SOMETHING") =
      (⟨"ERROR", chars "Action execution failed: " ++ chars "lost page"⟩, none) ∧
    loopGo crashOracle 5 5 1 "CONTINUE" [] 0 [] =
      ([⟨1, chars "ERROR", "ERROR", [], chars "Error: " ++ chars "browser crashed"⟩],
       "ERROR") :=
  ⟨C7_fault_conversion.1 failClickPage none 1 (chars "CLICK button")
      (chars "detached element") (by decide) (by decide) (by decide) rfl,
   C7_fault_conversion.2.1 failFillPage none 1 (chars "FILL email a@b.example")
      (chars "input gone") (by decide) (by decide) (by decide) (by decide) rfl,
   C7_fault_conversion.2.2.1 failScrollPage none 1 (chars "SCROLL")
      (chars "lost page") (by decide) (by decide) (by decide) (by decide) (by decide) rfl,
   C7_fault_conversion.2.2.2.1 downPage none 1 (chars "NAVIGATE https://example.com")
      (chars "https://example.com") (chars "net::ERR_CONNECTION") (by decide) (by decide)
      (by decide) (by decide) (by decide) (by decide) (by decide) rfl,
   C7_fault_conversion.2.2.2.2.1 failScrollPage none 1 (chars "SEARCH cats")
      (chars "lost page") (by decide) (by decide) (by decide) (by decide) (by decide)
      (by decide) (by decide) rfl,
   C7_fault_conversion.2.2.2.2.2.1 failScrollPage none 1 (chars "DO SOMETHING")
      (chars "lost page") (by decide) (by decide) (by decide) (by decide) (by decide)
      (by decide) (by decide) (by decide) rfl,
   C7_fault_conversion.2.2.2.2.2.2 crashOracle 5 4 1 [] 0 [] (chars "browser crashed")
      (by decide) rfl⟩

end WebAgents
